import Mathlib

/-!
Shallow embedding of the two driver programs of the kbd-audio repository:
the batch driver keytap3.cpp and the live application driver keytap3-app.cpp.
The numerical kernels (filtering, keypress detection, cross-correlation,
clustering, beam search) live in headers that are not part of these two
files; where a theorem depends on them they are abstracted as explicit
collaborator functions, or modelled from the specification (marked as such
in the corresponding doc comment).  Everything else is transcribed from the
two source files.
-/

namespace Keytap3

/-- Audio filter selector (EAudioFilter in the repository common header);
the three values are the ones named by the drivers (keytap3.cpp:28). -/
inductive EAudioFilter
  | None
  | FirstOrderHighPass
  | SecondOrderHighPass
  deriving DecidableEq, Repr

/-- Modelled from the spec: constants.h is not under src; the process-wide
sample rate is the fixed constant 24 kHz. -/
def kSampleRate : Int := 24000

/-- Modelled from the spec: constants.h is not under src; the default
cutoff frequency of the high-pass filter is 1500 Hz. -/
def kFreqCutoff_Hz : Int := 1500

/-- Beam width computed by the batch driver, keytap3.cpp:144:
params.nHypothesesToKeep = std::max(100, 2100 - 10*std::min(200,
std::max(0, ((int) keyPresses.size() - 100)))). -/
def batchNHypothesesToKeep (n : Int) : Int :=
  max 100 (2100 - 10 * min 200 (max 0 (n - 100)))

/-- Beam width computed by the live driver, keytap3-app.cpp:431; the
expression is character-for-character the one of the batch driver. -/
def appNHypothesesToKeep (n : Int) : Int :=
  max 100 (2100 - 10 * min 200 (max 0 (n - 100)))

/-- C3: both variants set the beam width to
max(100, 2100 - 10*min(200, max(0, n - 100))); it is 2100 for n at most
100, shrinks linearly to 100 as n grows to 300, and is 100 from there on. -/
theorem nHypothesesToKeep_formula (n : Int) :
    batchNHypothesesToKeep n = appNHypothesesToKeep n ∧
    batchNHypothesesToKeep n = max 100 (2100 - 10 * min 200 (max 0 (n - 100))) ∧
    (n ≤ 100 → batchNHypothesesToKeep n = 2100) ∧
    (100 ≤ n → n ≤ 300 → batchNHypothesesToKeep n = 2100 - 10 * (n - 100)) ∧
    (300 ≤ n → batchNHypothesesToKeep n = 100) := by
  unfold batchNHypothesesToKeep appNHypothesesToKeep
  refine ⟨rfl, rfl, ?_, ?_, ?_⟩ <;> intros <;> omega

/-- Witness for C3: the beam width at three concrete event counts. -/
theorem nHypothesesToKeep_formula_witness :
    ((50 : Int) ≤ 100 ∧ batchNHypothesesToKeep 50 = 2100) ∧
    ((100 : Int) ≤ 200 ∧ (200 : Int) ≤ 300 ∧
      batchNHypothesesToKeep 200 = 2100 - 10 * (200 - 100)) ∧
    ((300 : Int) ≤ 350 ∧ batchNHypothesesToKeep 350 = 100) :=
  ⟨⟨by decide, (nHypothesesToKeep_formula 50).2.2.1 (by decide)⟩,
   ⟨by decide, by decide, (nHypothesesToKeep_formula 200).2.2.2.1 (by decide) (by decide)⟩,
   ⟨by decide, (nHypothesesToKeep_formula 350).2.2.2.2 (by decide)⟩⟩

/-!
Similarity map shape and the min/max scan of the batch driver (C1).
-/

/-- Modelled from the spec: calculateSimilartyMap (subbreak3.h, not under
src) fills an n x n matrix of cross-correlation entries, one row and one
column per detected keypress; for n = 0 the returned map is empty.  Only
the shape matters here, so the entry values are supplied by a function. -/
def mkSimilarityMapShape (n : Nat) (cc : Nat → Nat → ℚ) : List (List ℚ) :=
  (List.range n).map (fun j => (List.range n).map (fun i => cc j i))

/-- Bounds-checked lookup of entry (j, i) of a similarity map; the C++
operator[] performs no such check, so a none result means the C++ read is
out of bounds. -/
def simLookup (m : List (List ℚ)) (j i : Nat) : Option ℚ :=
  match m[j]? with
  | some row => row[i]?
  | none => none

/-- Index pairs read by the min/max scan of the similarity map,
keytap3.cpp:111-118 (identically keytap3-app.cpp:414-421): the scan first
reads entry (0, 1) unconditionally to seed minCC and maxCC, then reads
(j, i) for 0 <= j < n - 1 and j + 1 <= i < n. -/
def simScanReads (n : Nat) : List (Nat × Nat) :=
  (0, 1) ::
    (List.range (n - 1)).flatMap
      (fun j => (List.range' (j + 1) (n - (j + 1))).map (fun i => (j, i)))

/-- Exit code of the batch driver main (keytap3.cpp:26-266) as a function
of the outcomes of its fallible stages, in program order: fewer than two
positional arguments give -1, a failed read gives -1, a failed conversion
-4, failed detection -2, a failed similarity computation -3, a failed
n-gram load -5, and otherwise the run ends with 0. -/
structure BatchIO where
  readOk : Bool
  convertOk : Bool
  detectOk : Bool
  simOk : Bool
  loadOk : Bool

/-- Exit code of the batch driver, transcribed from keytap3.cpp. -/
def batchMainExit (argc : Nat) (io : BatchIO) : Int :=
  if argc < 3 then -1
  else if io.readOk = false then -1
  else if io.convertOk = false then -4
  else if io.detectOk = false then -2
  else if io.simOk = false then -3
  else if io.loadOk = false then -5
  else 0

/-- C1: the similarity-map scan reads entry (0, 1) for every n, and for
n = 0 and n = 1 that entry does not exist in the n x n map, so the read is
out of bounds; under the alternative reading in which the similarity stage
reports failure for fewer than two events, the batch driver exits with -3
rather than 0. -/
theorem similarityScan_reads_out_of_bounds :
    (0, 1) ∈ simScanReads 0 ∧
    simLookup (mkSimilarityMapShape 0 (fun _ _ => 0)) 0 1 = none ∧
    (0, 1) ∈ simScanReads 1 ∧
    simLookup (mkSimilarityMapShape 1 (fun _ _ => 0)) 0 1 = none ∧
    batchMainExit 3
      { readOk := true, convertOk := true, detectOk := true,
        simOk := false, loadOk := true } = -3 := by
  refine ⟨?_, rfl, ?_, rfl, by decide⟩ <;> simp [simScanReads]

/-!
Clustering outer loop (C4).  The clusterer itself (Cipher::Processor in
subbreak3.h) is not under src, so it is abstracted as a function g from the
maxClusters ceiling to the list of clusterings it returns; the loop below
is transcribed from keytap3.cpp:155-165 (identically
keytap3-app.cpp:442-452): params.maxClusters starts at 29 (keytap3.cpp:142),
each of the 16 iterations calls processor.getClusterings with the current
params and appends every returned clustering to the pool, then sets
params.maxClusters to 29 + 4*(nIter + 1) and re-initializes the processor.
The first component of the result records the maxClusters value passed to
each call, in order; the second is the pooled candidate list. -/
def clusteringRun {α : Type} (g : Int → List α) : List Int × List α :=
  let f := fun (st : (List Int × List α) × Int) (nIter : Nat) =>
    let cur := g st.2
    ((st.1.1 ++ [st.2], st.1.2 ++ cur), 29 + 4 * ((nIter : Int) + 1))
  ((List.range 16).foldl f (([], []), 29)).1

set_option maxHeartbeats 4000000 in
/-- C4: the orchestrator makes exactly 16 clusterer calls, with maxClusters
29, 33, ..., 89, and the candidate pool is the concatenation of the results
of those 16 calls in order. -/
theorem clustering_sixteen_calls_pooled {α : Type} (g : Int → List α) :
    (clusteringRun g).1 =
      [29, 33, 37, 41, 45, 49, 53, 57, 61, 65, 69, 73, 77, 81, 85, 89] ∧
    (clusteringRun g).1.length = 16 ∧
    (clusteringRun g).2 = ((clusteringRun g).1.map g).flatten := by
  refine ⟨rfl, rfl, ?_⟩
  show (clusteringRun g).2 =
    ([29, 33, 37, 41, 45, 49, 53, 57, 61, 65, 69, 73, 77, 81, 85, 89].map g).flatten
  have h : (clusteringRun g).2 =
      g 29 ++ g 33 ++ g 37 ++ g 41 ++ g 45 ++ g 49 ++ g 53 ++ g 57 ++ g 61 ++
      g 65 ++ g 69 ++ g 73 ++ g 77 ++ g 81 ++ g 85 ++ g 89 := rfl
  rw [h]
  simp [List.append_assoc]

/-!
Live application driver (keytap3-app.cpp): recording state, app state,
UI commands, and one step of the main loop.
-/

/-- StateRecording, keytap3-app.cpp:43-67.  filterId is an int in the
source (initialized from EAudioFilter::FirstOrderHighPass = 1); the
keyPresses collection is modelled by the list of detected offsets. -/
structure StateRecording where
  captureId : Int := 0
  nChannels : Int := 1
  filterId : Int := 1
  freqCutoff_Hz : Int := kFreqCutoff_Hz
  nKeysToCapture : Int := 100
  nKeysHave : Int := 0
  isStarted : Bool := false
  doRecord : Bool := false
  doneRecording : Bool := false
  totalSize_bytes : Nat := 0
  pathOutput : String := "record.kbd"
  waveformF : List ℚ := []
  waveformI16 : List Int := []
  keyPresses : List Nat := []
  deriving Repr

/-- The functions the drivers call that live outside the two source files
(common.h and subbreak3.h): the selectable filter (filter id, cutoff,
sample rate), float-to-int16 conversion (false on failure becomes none),
and keypress detection (threshold, window, refractory, removeLowPower;
false on failure becomes none). -/
structure Collaborators where
  filter : Int → Int → Int → List ℚ → List ℚ
  convert : List ℚ → Option (List Int)
  findKeyPresses : List Int → ℚ → Int → Int → Bool → Option (List Nat)

/-- EAudioFilter::FirstOrderHighPass as the int the source passes around. -/
def firstOrderHighPassId : Int := 1

/-- StateRecording::updateWorker, keytap3-app.cpp:133-171: snapshot the
float waveform, filter the snapshot with the hard-coded
EAudioFilter::FirstOrderHighPass at kFreqCutoff_Hz (the comment in the
source says default filtering is applied because detection without it is
impossible), convert to int16 (on failure the old waveformI16 is kept and
the worker continues), detect keypresses over the whole snapshot (on
failure the old collection is kept), then under the mutex report a grown
key count on dataOutput and force doneRecording once tElapsed exceeds
2*60 seconds. -/
def updateWorker (c : Collaborators) (r : StateRecording) (dataOutput : String)
    (tElapsed : ℚ) : StateRecording × String :=
  let filtered := c.filter firstOrderHighPassId kFreqCutoff_Hz kSampleRate r.waveformF
  let r1 := match c.convert filtered with
    | some w => { r with waveformI16 := w }
    | none => r
  let r2 := match c.findKeyPresses r1.waveformI16 8 512 2048 true with
    | some ks => { r1 with keyPresses := ks }
    | none => r1
  let r3 := if r2.nKeysHave < (r2.keyPresses.length : Int) then
      { r2 with nKeysHave := (r2.keyPresses.length : Int) } else r2
  let out := if r2.nKeysHave < (r2.keyPresses.length : Int) then
      "recording " ++ toString (r2.keyPresses.length : Int) ++ " " ++
        toString (60 * ((r2.keyPresses.length : ℚ) / tElapsed))
    else dataOutput
  let r4 := if tElapsed > 2 * 60 then { r3 with doneRecording := true } else r3
  (r4, out)

/-- Parameters handed to AudioLogger::install by StateRecording::init,
keytap3-app.cpp:108-116: the filter field is hard-coded to
EAudioFilter::None while freqCutoff_Hz is copied from the state. -/
structure AudioParameters where
  captureId : Int
  nChannels : Int
  sampleRate : Int
  filter : EAudioFilter
  freqCutoff_Hz : Int

/-- The install parameters built by StateRecording::init. -/
def installParameters (r : StateRecording) : AudioParameters :=
  { captureId := r.captureId,
    nChannels := r.nChannels,
    sampleRate := kSampleRate,
    filter := EAudioFilter.None,
    freqCutoff_Hz := r.freqCutoff_Hz }

/-- StateRecording::init, keytap3-app.cpp:69-122: refuse when a recording
is already running, otherwise reset the buffers and flags and install the
audio logger; installOk abstracts AudioLogger::install (audio-logger is not
under src).  The Bool result is the C++ return value. -/
def recordingInit (installOk : Bool) (r : StateRecording) :
    StateRecording × Bool :=
  if r.isStarted ∧ r.doneRecording = false then (r, false)
  else
    let r1 := { r with nKeysHave := 0, isStarted := true, doRecord := true,
                       doneRecording := false, totalSize_bytes := 0,
                       waveformF := [], waveformI16 := [], keyPresses := [] }
    if installOk then (r1, true) else (r1, false)

/-- The four control states, keytap3-app.cpp:181-186. -/
inductive EState
  | Loading
  | Idle
  | Recording
  | Decoding
  deriving DecidableEq, Repr

/-- State, keytap3-app.cpp:180-204.  workerJoinable models
worker.joinable(); audioTerminated records whether
audioLogger.terminate() has been called; decodingWaveformInput is
decoding.waveformInput. -/
structure State where
  state : EState := EState.Loading
  dataOutput : String := ""
  recording : StateRecording := {}
  decodingWaveformInput : List Int := []
  workerJoinable : Bool := false
  workDone : Bool := false
  audioTerminated : Bool := false
  deriving Repr

/-- The setData command handler, keytap3-app.cpp:251-277, with the
stringstream tokenization abstracted: cmd is the first token and arg the
optionally parsed integer after a start command.  On start from Idle the
state is set to Recording and StateRecording::init is called with its
return value discarded, exactly as in the source (keytap3-app.cpp:270);
on stop the state is set to Idle with nothing else done. -/
def setData (installOk : Bool) (s : State) (cmd : String) (arg : Option Int) :
    State :=
  if cmd = "start" then
    if s.state = EState.Idle then
      let r := match arg with
        | some n => { s.recording with nKeysToCapture := n }
        | none => s.recording
      let p := recordingInit installOk r
      { s with state := EState.Recording, recording := p.1 }
    else s
  else if cmd = "stop" then
    { s with state := EState.Idle }
  else s

/-- The getData handler, keytap3-app.cpp:279-283: return the current
dataOutput and clear it. -/
def getData (s : State) : String × State :=
  (s.dataOutput, { s with dataOutput := "" })

/-- StateRecording::update, keytap3-app.cpp:124-131: when started and a
record request is pending, clear doRecord (and ask the audio logger for
one more second of audio). -/
def recordingUpdate (r : StateRecording) : StateRecording :=
  if r.isStarted = false then r
  else if r.doRecord then { r with doRecord := false } else r

/-- One iteration of the mainLoop lambda, keytap3-app.cpp:285-493.
Worker threads are modelled by the workerJoinable flag at spawn and by
separate completion functions (the worker bodies run between loop
iterations); fileOk abstracts whether the ofstream for the recording opens
successfully.  The Bool result is the return value of the lambda: false
(only when the output file cannot be opened) makes the native main loop
exit. -/
def mainLoopStep (fileOk : Bool) (s : State) : State × Bool :=
  match s.state with
  | EState.Loading =>
      let s1 := if s.workerJoinable = false then
          { s with dataOutput := "loading", workerJoinable := true } else s
      if s1.workDone then
        ({ s1 with state := EState.Idle, dataOutput := "loaded",
                   workerJoinable := false }, true)
      else (s1, true)
  | EState.Idle => (s, true)
  | EState.Recording =>
      let s1 := { s with recording := recordingUpdate s.recording }
      let s2 := if s1.workerJoinable = false then
          { s1 with workerJoinable := true } else s1
      if s2.recording.doneRecording then
        let s3 := { s2 with audioTerminated := true, workerJoinable := false }
        if fileOk = false then (s3, false)
        else
          let r := { s3.recording with
                       totalSize_bytes := 4 * s3.recording.waveformF.length }
          ({ s3 with recording := r, dataOutput := "decoding",
                     decodingWaveformInput := r.waveformI16,
                     state := EState.Decoding }, true)
      else (s2, true)
  | EState.Decoding =>
      let s1 := if s.workerJoinable = false then
          { s with workDone := false, workerJoinable := true } else s
      if s1.workDone then
        ({ s1 with state := EState.Idle, workerJoinable := false }, true)
      else (s1, true)

/-- Completion of the Loading worker, keytap3-app.cpp:291-306: when the
n-gram load succeeds the worker sets workDone; when it fails it returns
without setting workDone, so the flag is never raised. -/
def loadWorkerFinish (loadOk : Bool) (s : State) : State :=
  if loadOk then { s with workDone := true } else s

/-- Iterated run of the live main loop, keytap3-app.cpp:554-567: between
two control-loop iterations the Loading worker may complete (loadOk tells
whether the n-gram load succeeds).  The result is the final state and
some 0 when the loop exited (mainLoop returned false, after which native
main returns 0), or none when it is still running after fuel steps. -/
def appTrace (loadOk fileOk : Bool) : Nat → State → State × Option Int
  | 0, s => (s, none)
  | Nat.succ fuel, s =>
      let s1 := loadWorkerFinish loadOk s
      let p := mainLoopStep fileOk s1
      if p.2 then appTrace loadOk fileOk fuel p.1 else (p.1, some 0)

/-- AppInterface::init, keytap3-app.cpp:244-496: the function body ends in
return true and contains no other return, so its result is always true. -/
def appInterfaceInitResult : Bool := true

/-- The doInit lambda, keytap3-app.cpp:245-249: state.init() and then
return true; the result is always true. -/
def doInitResult : Bool := true

/-- Exit decisions the live main makes before entering its loop,
keytap3-app.cpp:509-549: fewer than three positional arguments give -1,
an app-interface initialization failure -4, a doInit failure -5; otherwise
the loop is entered (none). -/
def appMainPreExit (argc : Nat) (appInitOk doInitOk : Bool) : Option Int :=
  if argc < 4 then some (-1)
  else if appInitOk = false then some (-4)
  else if doInitOk = false then some (-5)
  else none

/-- Concrete collaborator functions used by witnesses: an identity filter,
a conversion that always succeeds, and a detector that finds no keys. -/
def trivialCollaborators : Collaborators :=
  { filter := fun _ _ _ w => w,
    convert := fun _ => some [],
    findKeyPresses := fun _ _ _ _ _ => some [] }

/-- C9: getData returns the current dataOutput, resets it to the empty
string, and a second call with no intervening write returns the empty
string, so each status message is delivered at most once. -/
theorem getData_clears_dataOutput (s : State) :
    (getData s).1 = s.dataOutput ∧
    (getData s).2.dataOutput = "" ∧
    (getData (getData s).2).1 = "" :=
  ⟨rfl, rfl, rfl⟩

/-- C2: evaluation of the code at the failing input.  From Idle, a start
command whose audio-logger installation fails still moves the state to
Recording (the false return of StateRecording::init is discarded at
keytap3-app.cpp:270), leaves dataOutput empty (the failure is only logged
to stderr), and marks the recording started; recordingInit itself did
report the failure. -/
theorem start_installFail_keeps_recording :
    (setData false { state := EState.Idle } "start" (some 100)).state
      = EState.Recording ∧
    (setData false { state := EState.Idle } "start" (some 100)).dataOutput
      = "" ∧
    (setData false { state := EState.Idle } "start" (some 100)).recording.isStarted
      = true ∧
    (recordingInit false (({} : State).recording)).2 = false := by
  decide

/-- A reachable shape of the live state while the Recording worker is
still running: state Recording, worker joinable, recording started and not
done. -/
def busyRecordingState : State :=
  { state := EState.Recording,
    recording := { isStarted := true },
    workerJoinable := true }

/-- C5 counterexample: a stop command received while the Recording worker
is still running (doneRecording false, worker joinable) transitions to
Idle immediately, without joining the worker and without terminating the
capture collaborator (keytap3-app.cpp:272-273). -/
theorem stop_transitions_without_join :
    (setData true busyRecordingState "stop" none).state = EState.Idle ∧
    (setData true busyRecordingState "stop" none).workerJoinable = true ∧
    (setData true busyRecordingState "stop" none).audioTerminated = false ∧
    busyRecordingState.recording.doneRecording = false ∧
    busyRecordingState.workerJoinable = true := by
  decide

/-- C5 (amended): every state transition performed by the main loop itself
is guarded: Loading to Idle and Decoding to Idle happen only when workDone
is set, and Recording to Decoding only when doneRecording is set, with the
capture collaborator terminated; in each case the worker is joined
(workerJoinable becomes false).  The stop command is the exception treated
by the counterexample. -/
theorem mainLoop_transitions_guarded (fileOk : Bool) (s : State)
    (h : (mainLoopStep fileOk s).1.state ≠ s.state) :
    (s.state = EState.Loading ∧ s.workDone = true ∧
      (mainLoopStep fileOk s).1.state = EState.Idle ∧
      (mainLoopStep fileOk s).1.workerJoinable = false) ∨
    (s.state = EState.Recording ∧ s.recording.doneRecording = true ∧
      (mainLoopStep fileOk s).1.state = EState.Decoding ∧
      (mainLoopStep fileOk s).1.audioTerminated = true ∧
      (mainLoopStep fileOk s).1.workerJoinable = false) ∨
    (s.state = EState.Decoding ∧ s.workDone = true ∧ s.workerJoinable = true ∧
      (mainLoopStep fileOk s).1.state = EState.Idle ∧
      (mainLoopStep fileOk s).1.workerJoinable = false) := by
  obtain ⟨st, dout, rec, dwi, wj, wd, aterm⟩ := s
  cases st <;>
    simp_all only [mainLoopStep, recordingUpdate] <;>
    (try split_ifs at h ⊢) <;>
    simp_all

/-- A concrete state in Loading whose worker has finished, used by the C5
witness. -/
def loadedDoneState : State :=
  { state := EState.Loading, workDone := true }

/-- Witness for C5 (amended): from Loading with workDone set, the step
transitions, and the guard disjunction holds. -/
theorem mainLoop_transitions_guarded_witness :
    ((mainLoopStep true loadedDoneState).1.state ≠ loadedDoneState.state) ∧
    ((loadedDoneState.state = EState.Loading ∧
      loadedDoneState.workDone = true ∧
      (mainLoopStep true loadedDoneState).1.state = EState.Idle ∧
      (mainLoopStep true loadedDoneState).1.workerJoinable = false) ∨
     (loadedDoneState.state = EState.Recording ∧
      loadedDoneState.recording.doneRecording = true ∧
      (mainLoopStep true loadedDoneState).1.state = EState.Decoding ∧
      (mainLoopStep true loadedDoneState).1.audioTerminated = true ∧
      (mainLoopStep true loadedDoneState).1.workerJoinable = false) ∨
     (loadedDoneState.state = EState.Decoding ∧
      loadedDoneState.workDone = true ∧
      loadedDoneState.workerJoinable = true ∧
      (mainLoopStep true loadedDoneState).1.state = EState.Idle ∧
      (mainLoopStep true loadedDoneState).1.workerJoinable = false)) :=
  ⟨by decide,
   mainLoop_transitions_guarded true loadedDoneState (by decide)⟩

/-- C6: a recording-worker iteration whose elapsed wall-clock time exceeds
two minutes forces doneRecording, and a main-loop step in Recording with
doneRecording set (and the output file opening) moves to Decoding, handing
the decoder the int16 waveform converted from the collected snapshot. -/
theorem timeout_forces_decoding (c : Collaborators) (r : StateRecording)
    (out : String) (t : ℚ) (fileOk : Bool) (s : State)
    (ht : 120 < t) (hs : s.state = EState.Recording)
    (hd : s.recording.doneRecording = true) (hf : fileOk = true) :
    (updateWorker c r out t).1.doneRecording = true ∧
    (mainLoopStep fileOk s).1.state = EState.Decoding ∧
    (mainLoopStep fileOk s).1.decodingWaveformInput
      = s.recording.waveformI16 := by
  have h60 : (2 : ℚ) * 60 < t := by linarith
  constructor
  · simp only [updateWorker, gt_iff_lt, h60, if_true]
  · obtain ⟨st, dout, rec, dwi, wj, wd, aterm⟩ := s
    subst hf
    simp_all only [mainLoopStep, recordingUpdate]
    split_ifs <;> simp_all

/-- A concrete state with doneRecording already set, used by the C6
witness. -/
def recordingDoneState : State :=
  { state := EState.Recording, recording := { doneRecording := true } }

/-- Witness for C6: at tElapsed = 121 seconds the worker forces
doneRecording, and the next Recording step lands in Decoding. -/
theorem timeout_forces_decoding_witness :
    (120 : ℚ) < 121 ∧
    recordingDoneState.state = EState.Recording ∧
    recordingDoneState.recording.doneRecording = true ∧
    ((updateWorker trivialCollaborators {} "" 121).1.doneRecording = true ∧
     (mainLoopStep true recordingDoneState).1.state = EState.Decoding ∧
     (mainLoopStep true recordingDoneState).1.decodingWaveformInput
       = recordingDoneState.recording.waveformI16) :=
  ⟨by norm_num, rfl, rfl,
   timeout_forces_decoding trivialCollaborators {} "" 121 true recordingDoneState
     (by norm_num) rfl rfl rfl⟩

/-- Helper for C7: when the n-gram load fails, the live app never leaves
Loading and the run never terminates, because loadWorkerFinish never sets
workDone and the Loading arm transitions only on workDone. -/
theorem appTrace_loading_stuck (fileOk : Bool) :
    ∀ (fuel : Nat) (s : State), s.state = EState.Loading → s.workDone = false →
      (appTrace false fileOk fuel s).1.state = EState.Loading ∧
      (appTrace false fileOk fuel s).1.workDone = false ∧
      (appTrace false fileOk fuel s).2 = none := by
  intro fuel
  induction fuel with
  | zero => intro s hs hw; exact ⟨hs, hw, rfl⟩
  | succ n ih =>
      intro s hs hw
      obtain ⟨st, dout, rec, dwi, wj, wd, aterm⟩ := s
      simp only at hs hw
      subst hs; subst hw
      cases wj with
      | false =>
          have htr : appTrace false fileOk (n + 1)
                ⟨EState.Loading, dout, rec, dwi, false, false, aterm⟩ =
              appTrace false fileOk n
                ⟨EState.Loading, "loading", rec, dwi, true, false, aterm⟩ := by
            simp [appTrace, loadWorkerFinish, mainLoopStep]
          rw [htr]
          exact ih _ rfl rfl
      | true =>
          have htr : appTrace false fileOk (n + 1)
                ⟨EState.Loading, dout, rec, dwi, true, false, aterm⟩ =
              appTrace false fileOk n
                ⟨EState.Loading, dout, rec, dwi, true, false, aterm⟩ := by
            simp [appTrace, loadWorkerFinish, mainLoopStep]
          rw [htr]
          exact ih _ rfl rfl

/-- C7 counterexample: with three positional arguments and a failing
n-gram load, the live app does not exit with -5 (or at all): the pre-loop
exit decision is none and after 50 loop iterations the run is still in
Loading with no exit code, while in the batch driver the same failure
exits with -5. -/
theorem ngram_loadFail_does_not_exit :
    (appTrace false true 50 {}).2 = none ∧
    (appTrace false true 50 {}).1.state = EState.Loading ∧
    appMainPreExit 4 appInterfaceInitResult doInitResult = none ∧
    batchMainExit 3
      { readOk := true, convertOk := true, detectOk := true,
        simOk := true, loadOk := false } = -5 :=
  ⟨(appTrace_loading_stuck true 50 {} rfl rfl).2.2,
   (appTrace_loading_stuck true 50 {} rfl rfl).1,
   rfl, by decide⟩

/-- C7 (amended): the live CLI exits -1 for fewer than three positional
arguments; its -4 and -5 exits are tied to app-interface initialization
and doInit, which always return true, so with well-formed arguments the
pre-loop decision is none, and an n-gram load failure does not exit -5 but
leaves the app in Loading forever. -/
theorem app_exit_codes (argc : Nat) (fileOk : Bool) (fuel : Nat) (s : State)
    (h4 : 4 ≤ argc) (hs : s.state = EState.Loading)
    (hw : s.workDone = false) :
    (∀ argc2, argc2 < 4 →
      appMainPreExit argc2 appInterfaceInitResult doInitResult = some (-1)) ∧
    appInterfaceInitResult = true ∧
    doInitResult = true ∧
    appMainPreExit argc appInterfaceInitResult doInitResult = none ∧
    (appTrace false fileOk fuel s).1.state = EState.Loading ∧
    (appTrace false fileOk fuel s).2 = none := by
  refine ⟨?_, rfl, rfl, ?_,
          (appTrace_loading_stuck fileOk fuel s hs hw).1,
          (appTrace_loading_stuck fileOk fuel s hs hw).2.2⟩
  · intro a ha
    simp [appMainPreExit, ha]
  · have : ¬ argc < 4 := by omega
    simp [appMainPreExit, this, appInterfaceInitResult, doInitResult]

/-- Witness for C7 (amended): argc = 4, fuel 20, initial state. -/
theorem app_exit_codes_witness :
    4 ≤ 4 ∧ ({} : State).state = EState.Loading ∧
    ({} : State).workDone = false ∧
    ((∀ argc2, argc2 < 4 →
       appMainPreExit argc2 appInterfaceInitResult doInitResult = some (-1)) ∧
     appInterfaceInitResult = true ∧
     doInitResult = true ∧
     appMainPreExit 4 appInterfaceInitResult doInitResult = none ∧
     (appTrace false true 20 {}).1.state = EState.Loading ∧
     (appTrace false true 20 {}).2 = none) :=
  ⟨by decide, rfl, rfl, app_exit_codes 4 true 20 {} (by decide) rfl rfl⟩

/-!
Recording file format round trip (C8).
-/

/-- A float32 sample is modelled by its 32-bit pattern, a Nat below 2^32;
the four bytes are the little-endian byte decomposition of that pattern.
Bit-identity of reloaded samples is equality of these words. -/
def sampleBytes (w : Nat) : List Nat :=
  [w % 256, w / 256 % 256, w / 65536 % 256, w / 16777216 % 256]

/-- The file write at the end of Recording, keytap3-app.cpp:345-353:
fout.write dumps the float array as raw bytes, sample after sample in
little-endian order, with no header. -/
def saveRecording : List Nat → List Nat
  | [] => []
  | w :: ws => sampleBytes w ++ saveRecording ws

/-- Modelled from the spec: readFromFile of common.h (used by the batch
driver at keytap3.cpp:44) is not under src; per the spec the recording
format is raw little-endian float32 samples with no header, so loading
reads consecutive 4-byte groups, dropping a trailing incomplete group. -/
def loadRecording : List Nat → List Nat
  | b0 :: b1 :: b2 :: b3 :: rest =>
      (b0 + 256 * b1 + 65536 * b2 + 16777216 * b3) :: loadRecording rest
  | _ => []

/-- C8: saving a float waveform in the recording format and reloading it
yields bit-identical samples. -/
theorem recording_roundtrip (ws : List Nat)
    (h : ∀ w ∈ ws, w < 4294967296) :
    loadRecording (saveRecording ws) = ws := by
  induction ws with
  | nil => rfl
  | cons w ws ih =>
      have hw : w < 4294967296 := h w (by simp)
      have hrest : ∀ x ∈ ws, x < 4294967296 := fun x hx => h x (by simp [hx])
      have hsave : saveRecording (w :: ws) =
          w % 256 :: (w / 256 % 256) :: (w / 65536 % 256) ::
            (w / 16777216 % 256) :: saveRecording ws := rfl
      rw [hsave, loadRecording, ih hrest]
      congr 1
      omega

/-- Witness for C8: a four-sample waveform (the patterns of 0.0f, a
denormal, 1.0f and -1.0f) survives the round trip bit-identically. -/
theorem recording_roundtrip_witness :
    (∀ w ∈ [0, 1, 1065353216, 3212836864], w < 4294967296) ∧
    loadRecording (saveRecording [0, 1, 1065353216, 3212836864]) =
      [0, 1, 1065353216, 3212836864] :=
  ⟨by decide, recording_roundtrip _ (by decide)⟩

/-!
Incremental detection ignores the -F and -f options (C10).
-/

/-- The default recording state, as value for witnesses. -/
def defaultRecording : StateRecording := {}

/-- C10: the incremental detection in updateWorker is insensitive to the
filterId and freqCutoff_Hz fields: changing them changes nothing in the
result except those copied fields; only the behavior of the collaborator
filter at FirstOrderHighPass and the default cutoff is ever consulted; the
raw float waveform is never modified (so the file saved later is the
unfiltered capture); and the capture collaborator is installed with filter
None. -/
theorem detection_ignores_filter_options (c c2 : Collaborators)
    (r : StateRecording) (out : String) (t : ℚ) (fid fc : Int)
    (hf : ∀ w, c.filter firstOrderHighPassId kFreqCutoff_Hz kSampleRate w =
               c2.filter firstOrderHighPassId kFreqCutoff_Hz kSampleRate w)
    (hc : c.convert = c2.convert)
    (hk : c.findKeyPresses = c2.findKeyPresses) :
    updateWorker c { r with filterId := fid, freqCutoff_Hz := fc } out t =
      ({ (updateWorker c r out t).1 with
           filterId := fid, freqCutoff_Hz := fc },
       (updateWorker c r out t).2) ∧
    updateWorker c r out t = updateWorker c2 r out t ∧
    (updateWorker c r out t).1.waveformF = r.waveformF ∧
    (installParameters r).filter = EAudioFilter.None := by
  obtain ⟨cid, nch, fId, fcz, nktc, nkh, ist, dr, dnr, tsb, po, wF, wI, kp⟩ := r
  refine ⟨?_, ?_, ?_, rfl⟩
  · rcases h1 : c.convert (c.filter firstOrderHighPassId kFreqCutoff_Hz
        kSampleRate wF) with _ | w <;>
      simp only [updateWorker, h1] <;>
      [rcases h2 : c.findKeyPresses wI 8 512 2048 true with _ | ks;
       rcases h2 : c.findKeyPresses w 8 512 2048 true with _ | ks] <;>
      simp only [h2] <;> split_ifs <;> rfl
  · simp only [updateWorker]
    rw [hf wF, hc, hk]
  · rcases h1 : c.convert (c.filter firstOrderHighPassId kFreqCutoff_Hz
        kSampleRate wF) with _ | w <;>
      simp only [updateWorker, h1] <;>
      [rcases h2 : c.findKeyPresses wI 8 512 2048 true with _ | ks;
       rcases h2 : c.findKeyPresses w 8 512 2048 true with _ | ks] <;>
      simp only [h2] <;> split_ifs <;> rfl

/-- Witness for C10 at the default recording state, with -F2 -f100 as the
ignored option values. -/
theorem detection_ignores_filter_options_witness :
    (∀ w, trivialCollaborators.filter firstOrderHighPassId kFreqCutoff_Hz
            kSampleRate w =
          trivialCollaborators.filter firstOrderHighPassId kFreqCutoff_Hz
            kSampleRate w) ∧
    trivialCollaborators.convert = trivialCollaborators.convert ∧
    trivialCollaborators.findKeyPresses = trivialCollaborators.findKeyPresses ∧
    (updateWorker trivialCollaborators
        { defaultRecording with filterId := 2, freqCutoff_Hz := 100 } "" 0 =
      ({ (updateWorker trivialCollaborators defaultRecording "" 0).1 with
           filterId := 2, freqCutoff_Hz := 100 },
       (updateWorker trivialCollaborators defaultRecording "" 0).2) ∧
     updateWorker trivialCollaborators defaultRecording "" 0 =
       updateWorker trivialCollaborators defaultRecording "" 0 ∧
     (updateWorker trivialCollaborators defaultRecording "" 0).1.waveformF =
       defaultRecording.waveformF ∧
     (installParameters defaultRecording).filter = EAudioFilter.None) :=
  ⟨fun _ => rfl, rfl, rfl,
   detection_ignores_filter_options trivialCollaborators trivialCollaborators
     defaultRecording "" 0 2 100 (fun _ => rfl) rfl rfl⟩

end Keytap3
